import Mathlib

/-!
Verification development for the mailstorm bulk-email dispatcher
(src/backend/email_sender.py and src/backend/main.py).

The Python source is shallowly embedded: a contact row is an association
list from column name to an optional string (`none` models a null/NaN
cell, `some s` a cell whose `str()` rendering is `s`); the SMTP session
performed by the transmitter is abstracted as a function returning
`Except SMTPExc Unit`, whose `error` constructors stand for the three
exception classes caught in `send_single_email`.
-/

namespace Mailstorm

/-- A contact row: association list from column name to cell value.
`none` models a null/NaN cell, `some s` a cell whose Python `str()`
rendering is the string `s`. -/
abbrev Row := List (String × Option String)

/-- Embeds `str(row.get(key, ""))` on a pandas row: a missing key yields
the default `""`; a NaN cell stringifies to `"nan"`; any other cell
yields its `str()` rendering. -/
def pyStrGet (row : Row) (key : String) : String :=
  match row.lookup key with
  | none => ""
  | some none => "nan"
  | some (some s) => s

/-- The default whitespace set of Python `str.strip`. -/
def pyIsSpace (c : Char) : Bool :=
  c = ' ' || c = '\t' || c = '\n' || c = '\r' || c = '\x0b' || c = '\x0c'

/-- Embeds Python `str.strip()`: drop leading and trailing whitespace. -/
def pyStrip (s : String) : String :=
  String.mk (((s.data.dropWhile pyIsSpace).reverse.dropWhile pyIsSpace).reverse)

/-- Embeds Python single-character substring containment (`c in s`). -/
def containsChar (s : String) (c : Char) : Bool :=
  s.data.contains c

/-- Embeds Python `str.startswith` on character lists. -/
def leadsWith : List Char → List Char → Bool
  | [], _ => true
  | _ :: _, [] => false
  | p :: ps, c :: cs => p == c && leadsWith ps cs

/-- Embeds Python substring containment (`pat in s`) on character lists. -/
def occursIn (pat : List Char) : List Char → Bool
  | [] => pat.isEmpty
  | c :: rest => leadsWith pat (c :: rest) || occursIn pat rest

/-- Scanner for Python `str.replace` on character lists: with skip count
0, scan left to right, replacing each leftmost non-overlapping
occurrence of `pat` by `rep`; a positive skip count drops the remaining
characters of an occurrence just replaced. -/
def replaceGo (pat rep : List Char) : List Char → Nat → List Char
  | [], _ => []
  | _ :: rest, k + 1 => replaceGo pat rep rest k
  | c :: rest, 0 =>
    if leadsWith pat (c :: rest) && !pat.isEmpty then
      rep ++ replaceGo pat rep rest (pat.length - 1)
    else
      c :: replaceGo pat rep rest 0

/-- Embeds Python `str.replace` on character lists.  The guard on
`pat.isEmpty` in the scanner is never hit by the renderer, whose
patterns are brace-delimited placeholder literals of length at least
two. -/
def replaceList (pat rep s : List Char) : List Char :=
  replaceGo pat rep s 0

/-- Embeds Python `str.replace` on strings. -/
def pyReplace (s pat rep : String) : String :=
  String.mk (replaceList pat.data rep.data s.data)

/-- Embeds `replace_variables_in_message` (src/backend/email_sender.py,
lines 51-63): fold over the variable list in list order; for each
variable, replace all occurrences of the placeholder literal with the
row's value when the variable is a present, non-null column, and with
`""` otherwise. (The source names the list `variables`, a reserved word
here.) -/
def replace_variables_in_message (template : String) (row_data : Row)
    (variableList : List String) : String :=
  variableList.foldl (fun personalized_text varName =>
    let placeholder := "\x7b" ++ varName ++ "\x7d"
    let value : String :=
      match row_data.lookup varName with
      | some (some v) => v
      | some none => ""
      | none => ""
    pyReplace personalized_text placeholder value) template

/-- Written from the spec sentence (section 4.1): the value substituted
for `name` is `str(record[name])` if `name` is present in `record` and
its value is not null/NaN, and the empty string otherwise. -/
def specSubstitutionValue (record : Row) (name : String) : String :=
  match record.lookup name with
  | some (some v) => v
  | _ => ""

/-- Written from the spec sentence (section 4.1): for each name in
`variableNames`, build the placeholder literal and replace all its
occurrences in the in-progress result with the substitution value. -/
def render_spec (template : String) (record : Row)
    (variableNames : List String) : String :=
  variableNames.foldl (fun acc name =>
    pyReplace acc ("\x7b" ++ name ++ "\x7d") (specSubstitutionValue record name))
    template

/-- Embeds Python `str.split(sep)` on character lists (result is always
non-empty). -/
def splitOn (sep : Char) : List Char → List (List Char)
  | [] => [[]]
  | c :: rest =>
    match splitOn sep rest with
    | [] => [[]]
    | h :: t => if c = sep then [] :: h :: t else (c :: h) :: t

/-- Embeds `s.split(sep)[-1]`: the segment after the last occurrence of
`sep` (the whole string when `sep` does not occur). -/
def lastSegmentAfter (sep : Char) (s : String) : String :=
  String.mk ((splitOn sep s.data).getLastD [])

/-- The validation test of line 165 of src/backend/email_sender.py:
a trimmed address is skipped when it has no `@` or the substring after
the last `@` has no `.`. -/
def addressIsInvalid (receiver_email : String) : Bool :=
  !containsChar receiver_email '@' || !containsChar (lastSegmentAfter '@' receiver_email) '.'

/-- The three exception classes caught in `send_single_email`
(lines 125-134): `smtplib.SMTPAuthenticationError`,
`smtplib.SMTPConnectError`, and the catch-all `Exception`. -/
inductive SMTPExc
  | authentication
  | connect
  | other
deriving DecidableEq, BEq

/-- The argument bundle `send_single_email` passes to the SMTP session
(lines 177-188): account credentials, recipient, rendered subject and
body, and the html/bcc flags. -/
structure SendReq where
  sender_email : String
  sender_password : String
  smtp_server : String
  smtp_port : Nat
  receiver_email : String
  subject : String
  body : String
  html_content : Bool
  bcc_mode : Bool
deriving DecidableEq

/-- Embeds `send_single_email` (src/backend/email_sender.py, lines
65-134).  The SMTP session (connect, starttls, login, send_message) is
abstracted as `smtp : SendReq → Except SMTPExc Unit`; the `try` block
returns `True` when the session completes, and each of the three
`except` clauses logs and returns `False`. -/
def send_single_email (smtp : SendReq → Except SMTPExc Unit) (req : SendReq) : Bool :=
  match smtp req with
  | Except.ok _ => true
  | Except.error SMTPExc.authentication => false
  | Except.error SMTPExc.connect => false
  | Except.error SMTPExc.other => false

/-- The log line of the `smtplib.SMTPAuthenticationError` clause
(line 126). -/
def authFailureLog (sender_email : String) : String :=
  "❌ Authentication failed for " ++ (sender_email ++
    ". Check password/app password and SMTP settings. For Gmail/Outlook, use an App Password.")

/-- The log line of the `smtplib.SMTPConnectError` clause (line 129). -/
def connectFailureLog (smtp_server smtp_port err : String) : String :=
  "❌ Could not connect to SMTP server " ++ (smtp_server ++ (":" ++ (smtp_port ++
    (". Error: " ++ err))))

/-- The log line of the catch-all `Exception` clause (line 133). -/
def otherFailureLog (receiver_email err : String) : String :=
  "❌ Error sending email to " ++ (receiver_email ++ (": " ++ err))

/-- The log line of the empty-address skip (line 161); the row index is
the 1-based position printed by the source. -/
def skipMissingLog (index : Nat) : String :=
  "⚠️ Skipping row " ++ (toString (index + 1) ++
    ": \x27email\x27 column is empty or missing.")

/-- The log line of the malformed-address skip (line 166). -/
def skipInvalidLog (receiver_email : String) (index : Nat) : String :=
  "⚠️ Skipping invalid email address: \x27" ++ (receiver_email ++
    ("\x27 (row " ++ (toString (index + 1) ++ ")")))

/-- `DELAY_BETWEEN_EMAILS` (line 49): the inclusive bounds handed to
`random.randint` for the pause after each transmission attempt. -/
def DELAY_BETWEEN_EMAILS : Nat × Nat := (5, 15)

/-- One observable action of the dispatch loop body, in program order:
the two validation skips (with their distinct log reasons), a
transmitter invocation with its boolean outcome, and the
`time.sleep(random.randint(*DELAY_BETWEEN_EMAILS))` pause. -/
inductive Event
  | skip_missing
  | skip_invalid (receiver_email : String)
  | send (req : SendReq) (ok : Bool)
  | sleep
deriving DecidableEq

/-- The value returned by `send_emails_from_dataframe_enhanced`
(line 201) — the two counters — together with the trace of observable
actions the loop performed, in program order. -/
structure CampaignOutcome where
  successful_sends : Nat
  failed_sends : Nat
  events : List Event
deriving DecidableEq

/-- Embeds the `for index, row in df.iterrows()` loop of
`send_emails_from_dataframe_enhanced` (lines 157-197), one contact row
per recursive step: trim the stringified `email` cell; skip (counting a
failure) when it is empty or malformed; otherwise render subject and
body, invoke the transmitter, count the boolean outcome, and sleep. -/
def send_emails_loop (smtp : SendReq → Except SMTPExc Unit)
    (subject_template message_template : String) (variableList : List String)
    (sender_email sender_password smtp_server : String) (smtp_port : Nat)
    (html_content bcc_mode : Bool) : List Row → CampaignOutcome
  | [] => ⟨0, 0, []⟩
  | row :: rest =>
    let receiver_email := pyStrip (pyStrGet row "email")
    if receiver_email = "" then
      let r := send_emails_loop smtp subject_template message_template variableList
        sender_email sender_password smtp_server smtp_port html_content bcc_mode rest
      ⟨r.successful_sends, r.failed_sends + 1, Event.skip_missing :: r.events⟩
    else if addressIsInvalid receiver_email then
      let r := send_emails_loop smtp subject_template message_template variableList
        sender_email sender_password smtp_server smtp_port html_content bcc_mode rest
      ⟨r.successful_sends, r.failed_sends + 1,
        Event.skip_invalid receiver_email :: r.events⟩
    else
      let req : SendReq :=
        ⟨sender_email, sender_password, smtp_server, smtp_port, receiver_email,
          replace_variables_in_message subject_template row variableList,
          replace_variables_in_message message_template row variableList,
          html_content, bcc_mode⟩
      let ok := send_single_email smtp req
      let r := send_emails_loop smtp subject_template message_template variableList
        sender_email sender_password smtp_server smtp_port html_content bcc_mode rest
      if ok then
        ⟨r.successful_sends + 1, r.failed_sends,
          Event.send req true :: Event.sleep :: r.events⟩
      else
        ⟨r.successful_sends, r.failed_sends + 1,
          Event.send req false :: Event.sleep :: r.events⟩

/-- Embeds `send_emails_from_dataframe_enhanced` (src/backend/
email_sender.py, lines 136-201): run the loop over the dataframe rows
and return the result dictionary with the two counters (exposed here
together with the event trace). -/
def send_emails_from_dataframe_enhanced (smtp : SendReq → Except SMTPExc Unit)
    (df : List Row) (subject_template message_template : String)
    (variableList : List String)
    (sender_email sender_password smtp_server : String) (smtp_port : Nat)
    (html_content bcc_mode : Bool) : CampaignOutcome :=
  send_emails_loop smtp subject_template message_template variableList
    sender_email sender_password smtp_server smtp_port html_content bcc_mode df

/-- Count of sleep pauses in a trace. -/
def sleepCount (es : List Event) : Nat :=
  es.countP (fun e => match e with | Event.sleep => true | _ => false)

/-- Count of transmitter invocations in a trace. -/
def transmitCount (es : List Event) : Nat :=
  es.countP (fun e => match e with | Event.send _ _ => true | _ => false)

/-- Transmitter invocations of a trace, in order. -/
def transmitReqs (es : List Event) : List SendReq :=
  es.filterMap (fun e => match e with | Event.send q _ => some q | _ => none)

/-- Count of terminal per-row outcomes in a trace (every event except
the sleep pause is the unique terminal outcome of one contact row). -/
def terminalCount (es : List Event) : Nat :=
  es.countP (fun e => match e with | Event.sleep => false | _ => true)

/-- Whether the dispatch loop reaches the transmitter for a row: the
trimmed stringified `email` cell is non-empty and passes the address
test of line 165. -/
def rowAttempted (row : Row) : Bool :=
  !(pyStrip (pyStrGet row "email") = "") && !addressIsInvalid (pyStrip (pyStrGet row "email"))

/-- The events the loop body emits for one contact row. -/
def rowEvents (smtp : SendReq → Except SMTPExc Unit)
    (subject_template message_template : String) (variableList : List String)
    (sender_email sender_password smtp_server : String) (smtp_port : Nat)
    (html_content bcc_mode : Bool) (row : Row) : List Event :=
  let receiver_email := pyStrip (pyStrGet row "email")
  if receiver_email = "" then [Event.skip_missing]
  else if addressIsInvalid receiver_email then [Event.skip_invalid receiver_email]
  else
    let req : SendReq :=
      ⟨sender_email, sender_password, smtp_server, smtp_port, receiver_email,
        replace_variables_in_message subject_template row variableList,
        replace_variables_in_message message_template row variableList,
        html_content, bcc_mode⟩
    [Event.send req (send_single_email smtp req), Event.sleep]

/-- A sender account configuration, with the four fields of the
`EmailConfig` pydantic model in src/backend/main.py (lines 95-99). -/
structure EmailConfig where
  senderEmail : String
  senderPassword : String
  smtpServer : String
  smtpPort : Nat
deriving DecidableEq

/-- The campaign result of the multi-account dispatcher described by the
spec (sections 3 and 4.2): the successful recipients, the failed entries
tagged with recipient and reason, plus — for verification — the account
used for each transmission attempt and the number of transmitter
invocations, both in order. -/
structure RRCampaignResult where
  successful : List String
  failed : List (String × String)
  used_accounts : List EmailConfig
  transmitter_calls : Nat
deriving DecidableEq

/-- The failure reason the spec (section 4.2 step 3) prescribes when no
sender account is configured. -/
def no_sender_reason : String := "no sender configuration"

/-- Modelled from the spec: the per-contact loop of the multi-account
round-robin dispatcher (spec section 4.2, steps 1-6).  The repository's
multi-account revision of `send_emails_from_dataframe_enhanced` is not
under src/ — only its caller is (src/backend/main.py lines 652-669 passes
`email_configs` and reads per-recipient lists) — so the loop is written
from the spec's words: validate the trimmed address (distinguishing a
missing from a malformed address), render subject and body, pop the
account at the front of the rotation queue and re-append it to the back,
transmit, and record exactly one outcome per contact. -/
def rrLoop (send : EmailConfig → String → String → String → Bool)
    (subjectTemplate messageTemplate : String) (variableNames : List String) :
    List EmailConfig → List Row → RRCampaignResult
  | _, [] => ⟨[], [], [], 0⟩
  | queue, row :: rest =>
    let receiver := pyStrip (pyStrGet row "email")
    if receiver = "" then
      let r := rrLoop send subjectTemplate messageTemplate variableNames queue rest
      ⟨r.successful, (receiver, "missing address") :: r.failed,
        r.used_accounts, r.transmitter_calls⟩
    else if addressIsInvalid receiver then
      let r := rrLoop send subjectTemplate messageTemplate variableNames queue rest
      ⟨r.successful, (receiver, "malformed address") :: r.failed,
        r.used_accounts, r.transmitter_calls⟩
    else
      match queue with
      | [] =>
        let r := rrLoop send subjectTemplate messageTemplate variableNames [] rest
        ⟨r.successful, (receiver, no_sender_reason) :: r.failed,
          r.used_accounts, r.transmitter_calls⟩
      | acct :: qrest =>
        let subj := replace_variables_in_message subjectTemplate row variableNames
        let body := replace_variables_in_message messageTemplate row variableNames
        let ok := send acct receiver subj body
        let r := rrLoop send subjectTemplate messageTemplate variableNames
          (qrest ++ [acct]) rest
        if ok then
          ⟨receiver :: r.successful, r.failed,
            acct :: r.used_accounts, r.transmitter_calls + 1⟩
        else
          ⟨r.successful, (receiver, "transmission error") :: r.failed,
            acct :: r.used_accounts, r.transmitter_calls + 1⟩

/-- Modelled from the spec: the multi-account dispatcher entry point
(spec sections 4.2 and 7).  When zero accounts are configured the check
fires once, before the per-contact loop, and records every contact as
failed with reason `no sender configuration`, with no transmitter
invocation; otherwise the rotation queue starts at account index 0. -/
def dispatch_rr (send : EmailConfig → String → String → String → Bool)
    (subjectTemplate messageTemplate : String) (variableNames : List String)
    (accounts : List EmailConfig) (contacts : List Row) : RRCampaignResult :=
  if accounts.isEmpty then
    ⟨[], contacts.map (fun row => (pyStrip (pyStrGet row "email"), no_sender_reason)),
      [], 0⟩
  else
    rrLoop send subjectTemplate messageTemplate variableNames accounts contacts

/-- The account sequence produced by `n` pop-front/re-append-back steps
of a rotation queue. -/
def rotationSelections : Nat → List EmailConfig → List EmailConfig
  | 0, _ => []
  | _ + 1, [] => []
  | n + 1, a :: t => a :: rotationSelections n (t ++ [a])

/-- Whether the round-robin dispatcher reaches the account-selection
step for a contact (spec section 4.2 step 1 passed). -/
def rrAttempted (row : Row) : Bool :=
  !(pyStrip (pyStrGet row "email") = "") && !addressIsInvalid (pyStrip (pyStrGet row "email"))

/-- The parameter names of `send_emails_from_dataframe_enhanced` as
defined in src/backend/email_sender.py (lines 136-147). -/
def dispatcherParams : List String :=
  ["df", "subject_template", "message_template", "variables", "sender_email",
   "sender_password", "smtp_server", "smtp_port", "html_content", "bcc_mode",
   "media_path"]

/-- The parameters of `send_emails_from_dataframe_enhanced` that carry a
default value (line 147). -/
def dispatcherDefaulted : List String := ["media_path"]

/-- The keyword-argument names of the call in `send_emails_endpoint`
(src/backend/main.py, lines 653-662). -/
def endpointCallKeywords : List String :=
  ["df", "subject_template", "message_template", "variables", "email_configs",
   "media_path", "html_content", "bcc_mode"]

/-- A Python `TypeError` raised while binding a keyword-only call. -/
inductive PyCallError
  | unexpectedKeyword (k : String)
  | missingArgument (p : String)
deriving DecidableEq

/-- Python call binding for a call passing keyword arguments only, to a
function without `*args`/`**kwargs`: a keyword that names no parameter
raises `TypeError` (unexpected keyword argument), as does a
non-defaulted parameter that no keyword supplies. -/
def bindKeywordCall (params defaulted kwargs : List String) :
    Except PyCallError Unit :=
  match kwargs.find? (fun k => !params.contains k) with
  | some k => Except.error (PyCallError.unexpectedKeyword k)
  | none =>
    match params.find? (fun p => !kwargs.contains p && !defaulted.contains p) with
    | some p => Except.error (PyCallError.missingArgument p)
    | none => Except.ok ()

/-- The keys of the dictionary `send_emails_from_dataframe_enhanced`
returns (line 201). -/
def sendResultKeys : List String := ["successful_sends", "failed_sends"]

/-- The keys `send_emails_endpoint` reads from the call's result
(src/backend/main.py, lines 663-668). -/
def endpointReadKeys : List String := ["successful_emails", "failed_emails"]

/-- Embeds the tail of `send_emails_endpoint` (src/backend/main.py,
lines 652-675) for a request that passed every earlier validation: the
call into `send_emails_from_dataframe_enhanced` is attempted; a
`TypeError` from call binding (or a `KeyError` from reading a missing
result key) propagates to the `except Exception` clause, which answers
HTTP 500.  Returns the response status code paired with the number of
transmitter invocations performed. -/
def send_emails_endpoint_core (smtp : SendReq → Except SMTPExc Unit)
    (df : List Row) (subject message : String) (variableList : List String)
    (html_content bcc_mode : Bool) : Nat × Nat :=
  match bindKeywordCall dispatcherParams dispatcherDefaulted endpointCallKeywords with
  | Except.error _ => (500, 0)
  | Except.ok _ =>
    let r := send_emails_from_dataframe_enhanced smtp df subject message
      variableList "" "" "" 0 html_content bcc_mode
    if endpointReadKeys.all (fun k => sendResultKeys.contains k) then
      (200, transmitCount r.events)
    else
      (500, transmitCount r.events)

/-- Whether a trace begins with a sleep pause. -/
def headIsSleep (es : List Event) : Bool :=
  match es.head? with
  | some Event.sleep => true
  | _ => false

/-! ### Helper lemmas about the single-account dispatch loop -/

/-- Each loop iteration adds exactly one to one of the two counters. -/
lemma send_emails_loop_sum (smtp : SendReq → Except SMTPExc Unit)
    (subject_template message_template : String) (variableList : List String)
    (sender_email sender_password smtp_server : String) (smtp_port : Nat)
    (html_content bcc_mode : Bool) :
    ∀ rows : List Row,
      (send_emails_loop smtp subject_template message_template variableList
        sender_email sender_password smtp_server smtp_port html_content bcc_mode
        rows).successful_sends
      + (send_emails_loop smtp subject_template message_template variableList
        sender_email sender_password smtp_server smtp_port html_content bcc_mode
        rows).failed_sends = rows.length := by
  intro rows
  induction rows with
  | nil => simp [send_emails_loop]
  | cons row rest ih =>
    simp only [send_emails_loop, List.length_cons]
    split
    · simpa using by omega
    · split
      · simpa using by omega
      · split
        · simpa using by omega
        · simpa using by omega

/-- Every event the loop emits other than the sleep pause is the unique
terminal outcome of one contact row. -/
lemma send_emails_loop_terminal (smtp : SendReq → Except SMTPExc Unit)
    (subject_template message_template : String) (variableList : List String)
    (sender_email sender_password smtp_server : String) (smtp_port : Nat)
    (html_content bcc_mode : Bool) :
    ∀ rows : List Row,
      terminalCount (send_emails_loop smtp subject_template message_template
        variableList sender_email sender_password smtp_server smtp_port
        html_content bcc_mode rows).events = rows.length := by
  intro rows
  induction rows with
  | nil => simp [send_emails_loop, terminalCount]
  | cons row rest ih =>
    simp only [send_emails_loop, List.length_cons]
    split
    · simpa [terminalCount, List.countP_cons] using ih
    · split
      · simpa [terminalCount, List.countP_cons] using ih
      · split
        · simpa [terminalCount, List.countP_cons] using ih
        · simpa [terminalCount, List.countP_cons] using ih

/-- The loop's event trace is the concatenation of the per-row event
blocks, in input order. -/
lemma send_emails_loop_events (smtp : SendReq → Except SMTPExc Unit)
    (subject_template message_template : String) (variableList : List String)
    (sender_email sender_password smtp_server : String) (smtp_port : Nat)
    (html_content bcc_mode : Bool) :
    ∀ rows : List Row,
      (send_emails_loop smtp subject_template message_template variableList
        sender_email sender_password smtp_server smtp_port html_content bcc_mode
        rows).events
      = rows.flatMap (rowEvents smtp subject_template message_template
          variableList sender_email sender_password smtp_server smtp_port
          html_content bcc_mode) := by
  intro rows
  induction rows with
  | nil => simp [send_emails_loop]
  | cons row rest ih =>
    simp only [send_emails_loop, rowEvents, List.flatMap_cons]
    split
    · simpa using ih
    · split
      · simpa using ih
      · split
        · next h => simp [h, ih]
        · next h => simp [h, ih]

/-! ### Helper lemmas about the renderer -/

/-- The value expression of the source's `if`/`else` (lines 58-61)
agrees with the spec's substitution value. -/
lemma codeValue_eq_specValue (r : Row) (v : String) :
    (match r.lookup v with
      | some (some w) => w
      | some none => ""
      | none => "") = specSubstitutionValue r v := by
  unfold specSubstitutionValue
  cases h : r.lookup v with
  | none => rfl
  | some o => cases o <;> rfl

/-- The renderer embedded from the source agrees with the renderer
written from the spec's words, on every input. -/
lemma render_code_eq_spec :
    ∀ (vs : List String) (t : String) (r : Row),
      replace_variables_in_message t r vs = render_spec t r vs := by
  intro vs
  induction vs with
  | nil => intro t r; rfl
  | cons v rest ih =>
    intro t r
    simp only [replace_variables_in_message, render_spec, List.foldl_cons]
    rw [codeValue_eq_specValue]
    exact ih (pyReplace t ("\x7b" ++ v ++ "\x7d") (specSubstitutionValue r v)) r

/-- With an empty record, every variable substitutes to the empty
string. -/
lemma render_empty_record :
    ∀ (vs : List String) (t : String),
      replace_variables_in_message t [] vs
        = vs.foldl (fun acc n => pyReplace acc ("\x7b" ++ n ++ "\x7d") "") t := by
  intro vs
  induction vs with
  | nil => intro t; rfl
  | cons v rest ih =>
    intro t
    simp only [replace_variables_in_message, List.foldl_cons] at *
    exact ih (pyReplace t ("\x7b" ++ v ++ "\x7d") "")

/-- A replacement whose pattern does not occur leaves the text
untouched. -/
lemma replaceGo_of_not_occurs (pat rep : List Char) :
    ∀ s : List Char, occursIn pat s = false → replaceGo pat rep s 0 = s := by
  intro s
  induction s with
  | nil => intro _; rfl
  | cons c rest ih =>
    intro h
    simp only [occursIn, Bool.or_eq_false_iff] at h
    simp [replaceGo, h.1, ih h.2]

/-- String-level version of `replaceGo_of_not_occurs`. -/
lemma pyReplace_of_not_occurs (s pat rep : String)
    (h : occursIn pat.data s.data = false) : pyReplace s pat rep = s := by
  unfold pyReplace replaceList
  rw [replaceGo_of_not_occurs _ _ _ h]

/-- Claim C3: the renderer processes the names in list order, replacing
all occurrences of the literal placeholder with `str(record[name])` when
the name is a present, non-null field and with the empty string
otherwise (stated as agreement with the renderer written from the spec's
words); with the empty record every listed placeholder is replaced by
the empty string; and a replacement whose pattern does not occur in the
text — in particular any placeholder not in the list — leaves the text
untouched. -/
theorem claim3_renderer_semantics :
    (∀ (t : String) (r : Row) (vs : List String),
        replace_variables_in_message t r vs = render_spec t r vs)
    ∧ (∀ (t : String) (vs : List String),
        replace_variables_in_message t [] vs
          = vs.foldl (fun acc n => pyReplace acc ("\x7b" ++ n ++ "\x7d") "") t)
    ∧ (∀ (s pat rep : String), occursIn pat.data s.data = false →
        pyReplace s pat rep = s) :=
  ⟨fun t r vs => render_code_eq_spec vs t r,
   fun t vs => render_empty_record vs t,
   pyReplace_of_not_occurs⟩

/-- Claim C3 witness: the third component applied at a concrete text in
which the placeholder does not occur. -/
theorem claim3_witness :
    pyReplace "Hello world" "\x7bname\x7d" "Al" = "Hello world" :=
  claim3_renderer_semantics.2.2 "Hello world" "\x7bname\x7d" "Al" (by decide)

/-- Claim C9: substitution is sequential in `variableList` order — the
tail is rendered against the text produced by substituting the head — so
a substituted value that contains a later variable's placeholder is
re-substituted when that later variable is processed; the concrete runs
show the order-dependence and, being equations between closed terms,
the determinism of the renderer. -/
theorem claim9_sequential_resubstitution :
    (∀ (t : String) (r : Row) (n : String) (ns : List String),
        replace_variables_in_message t r (n :: ns)
          = replace_variables_in_message
              (pyReplace t ("\x7b" ++ n ++ "\x7d") (specSubstitutionValue r n))
              r ns)
    ∧ replace_variables_in_message "\x7ba\x7d"
        [("a", some "\x7bb\x7d"), ("b", some "B!")] ["a", "b"] = "B!"
    ∧ replace_variables_in_message "\x7ba\x7d"
        [("a", some "\x7bb\x7d"), ("b", some "B!")] ["b", "a"] = "\x7bb\x7d" := by
  refine ⟨?_, by decide, by decide⟩
  intro t r n ns
  simp only [replace_variables_in_message, List.foldl_cons]
  rw [codeValue_eq_specValue]

/-- Claim C1: every row of the contact table yields exactly one terminal
outcome (one non-sleep event per row in the trace), the strictly
sequential loop never aborts early, and at campaign end the success
count plus the failure count equals the number of rows. -/
theorem claim1_every_row_one_outcome (smtp : SendReq → Except SMTPExc Unit)
    (df : List Row) (subject_template message_template : String)
    (variableList : List String)
    (sender_email sender_password smtp_server : String) (smtp_port : Nat)
    (html_content bcc_mode : Bool) :
    (send_emails_from_dataframe_enhanced smtp df subject_template
        message_template variableList sender_email sender_password smtp_server
        smtp_port html_content bcc_mode).successful_sends
      + (send_emails_from_dataframe_enhanced smtp df subject_template
        message_template variableList sender_email sender_password smtp_server
        smtp_port html_content bcc_mode).failed_sends = df.length
    ∧ terminalCount (send_emails_from_dataframe_enhanced smtp df
        subject_template message_template variableList sender_email
        sender_password smtp_server smtp_port html_content bcc_mode).events
      = df.length :=
  ⟨send_emails_loop_sum smtp subject_template message_template variableList
      sender_email sender_password smtp_server smtp_port html_content bcc_mode df,
   send_emails_loop_terminal smtp subject_template message_template variableList
      sender_email sender_password smtp_server smtp_port html_content bcc_mode df⟩

/-- Claim C6: every transmission error — authentication failure,
connection failure, or any other exception — is caught at the
transmitter boundary and translated into a `False` outcome for that
recipient, and for every transmitter behavior the campaign runs to the
end and returns a structured result covering all rows. -/
theorem claim6_errors_caught_campaign_continues
    (subject_template message_template : String) (variableList : List String)
    (sender_email sender_password smtp_server : String) (smtp_port : Nat)
    (html_content bcc_mode : Bool) :
    (∀ (e : SMTPExc) (req : SendReq),
        send_single_email (fun _ => Except.error e) req = false)
    ∧ (∀ (smtp : SendReq → Except SMTPExc Unit) (rows : List Row),
        (send_emails_from_dataframe_enhanced smtp rows subject_template
            message_template variableList sender_email sender_password
            smtp_server smtp_port html_content bcc_mode).successful_sends
          + (send_emails_from_dataframe_enhanced smtp rows subject_template
            message_template variableList sender_email sender_password
            smtp_server smtp_port html_content bcc_mode).failed_sends
          = rows.length) := by
  constructor
  · intro e req
    cases e <;> rfl
  · intro smtp rows
    exact send_emails_loop_sum smtp subject_template message_template
      variableList sender_email sender_password smtp_server smtp_port
      html_content bcc_mode rows

/-- One sleep pause per transmission attempt: the trace holds as many
sleeps as there are rows that reach the transmitter. -/
lemma send_emails_loop_sleeps (smtp : SendReq → Except SMTPExc Unit)
    (subject_template message_template : String) (variableList : List String)
    (sender_email sender_password smtp_server : String) (smtp_port : Nat)
    (html_content bcc_mode : Bool) :
    ∀ rows : List Row,
      sleepCount (send_emails_loop smtp subject_template message_template
        variableList sender_email sender_password smtp_server smtp_port
        html_content bcc_mode rows).events = rows.countP rowAttempted := by
  intro rows
  induction rows with
  | nil => simp [send_emails_loop, sleepCount]
  | cons row rest ih =>
    simp only [send_emails_loop, List.countP_cons]
    split
    · next h =>
      simp [sleepCount, List.countP_cons, rowAttempted, h] at *
      exact ih
    · split
      · next h1 h2 =>
        simp [sleepCount, List.countP_cons, rowAttempted, h1, h2] at *
        exact ih
      · next h1 h2 =>
        split
        · simp [sleepCount, List.countP_cons, rowAttempted, h1, h2] at *
          omega
        · simp [sleepCount, List.countP_cons, rowAttempted, h1, h2] at *
          omega

/-- The trace never begins with a sleep pause: the first event of a
non-empty campaign is the first row's skip or transmission. -/
lemma send_emails_loop_head (smtp : SendReq → Except SMTPExc Unit)
    (subject_template message_template : String) (variableList : List String)
    (sender_email sender_password smtp_server : String) (smtp_port : Nat)
    (html_content bcc_mode : Bool) :
    ∀ rows : List Row,
      headIsSleep (send_emails_loop smtp subject_template message_template
        variableList sender_email sender_password smtp_server smtp_port
        html_content bcc_mode rows).events = false := by
  intro rows
  cases rows with
  | nil => rfl
  | cons row rest =>
    simp only [send_emails_loop]
    split
    · rfl
    · split
      · rfl
      · split
        · rfl
        · rfl

/-! ### String distinctness helpers for the log messages -/

/-- Two strings differing at some character position are unequal under
the boolean equality test. -/
lemma string_beq_false_of_data_ne (n : Nat) (a b : String)
    (h : a.data[n]? ≠ b.data[n]?) : (a == b) = false := by
  rw [beq_eq_false_iff_ne]
  intro e
  exact h (by rw [e])

/-- Indexing an appended string inside its first component. -/
lemma data_append_left (a b : String) (n : Nat) (h : n < a.data.length) :
    (a ++ b).data[n]? = a.data[n]? := by
  rw [String.data_append, List.getElem?_append]
  rw [if_pos h]

/-- The authentication-failure log starts with the marker word
`Authentication` for every sender. -/
lemma authFailureLog_marker (s : String) : (authFailureLog s).data[2]? = some 'A' := by
  unfold authFailureLog
  rw [data_append_left _ _ _ (by decide)]
  decide

/-- The connection-failure log starts with the marker word `Could` for
every server, port and error text. -/
lemma connectFailureLog_marker (sv p e : String) :
    (connectFailureLog sv p e).data[2]? = some 'C' := by
  unfold connectFailureLog
  rw [data_append_left _ _ _ (by decide)]
  decide

/-- The catch-all failure log starts with the marker word `Error` for
every recipient and error text. -/
lemma otherFailureLog_marker (r e : String) :
    (otherFailureLog r e).data[2]? = some 'E' := by
  unfold otherFailureLog
  rw [data_append_left _ _ _ (by decide)]
  decide

/-- The empty-address skip log carries the marker `row` at position 12
for every row index. -/
lemma skipMissingLog_marker (i : Nat) : (skipMissingLog i).data[12]? = some 'r' := by
  unfold skipMissingLog
  rw [data_append_left _ _ _ (by decide)]
  decide

/-- The malformed-address skip log carries the marker `invalid` at
position 12 for every recipient and row index. -/
lemma skipInvalidLog_marker (r : String) (i : Nat) :
    (skipInvalidLog r i).data[12]? = some 'i' := by
  unfold skipInvalidLog
  rw [data_append_left _ _ _ (by decide)]
  decide

/-- A transmitter that always raises makes `send_single_email` return
`False`, whichever exception class is raised. -/
lemma send_single_email_error (e : SMTPExc) (req : SendReq) :
    send_single_email (fun _ => Except.error e) req = false := by
  cases e <;> rfl

/-- The campaign outcome is identical for any two always-raising
transmitters, whichever exception classes they raise. -/
lemma send_emails_loop_const_error (e1 e2 : SMTPExc)
    (subject_template message_template : String) (variableList : List String)
    (sender_email sender_password smtp_server : String) (smtp_port : Nat)
    (html_content bcc_mode : Bool) :
    ∀ rows : List Row,
      send_emails_loop (fun _ => Except.error e1) subject_template
        message_template variableList sender_email sender_password smtp_server
        smtp_port html_content bcc_mode rows
      = send_emails_loop (fun _ => Except.error e2) subject_template
        message_template variableList sender_email sender_password smtp_server
        smtp_port html_content bcc_mode rows := by
  intro rows
  induction rows with
  | nil => rfl
  | cons row rest ih =>
    simp only [send_emails_loop]
    split
    · rw [ih]
    · split
      · rw [ih]
      · simp [send_single_email_error, ih]

/-- Claim C7 counterexample: a pure authentication failure and a pure
connection failure yield the same campaign outcome on a one-contact
table, so the campaign result does not record which transmission error
category occurred. -/
theorem claim7_counterexample :
    send_emails_from_dataframe_enhanced
        (fun _ => Except.error SMTPExc.authentication)
        [[("email", some "alice@x.com")]] "S" "M" [] "s@y.com" "pw" "smtp.y"
        587 false false
      = send_emails_from_dataframe_enhanced
        (fun _ => Except.error SMTPExc.connect)
        [[("email", some "alice@x.com")]] "S" "M" [] "s@y.com" "pw" "smtp.y"
        587 false false
    ∧ (SMTPExc.authentication == SMTPExc.connect) = false := by
  constructor
  · decide
  · decide

/-- Claim C7 amended: `send_single_email` distinguishes the three
failure kinds only in its log output — the three log lines differ for
all argument values — while returning the same boolean `False` for each;
the dispatcher therefore records every transmission failure identically
and the campaign result does not distinguish the kinds. -/
theorem claim7_amended_kinds_only_logged
    (subject_template message_template : String) (variableList : List String)
    (sender_email sender_password smtp_server : String) (smtp_port : Nat)
    (html_content bcc_mode : Bool) :
    (∀ (s sv p e r e2 : String),
        (authFailureLog s == connectFailureLog sv p e) = false
        ∧ (authFailureLog s == otherFailureLog r e2) = false
        ∧ (connectFailureLog sv p e == otherFailureLog r e2) = false)
    ∧ (∀ (exc : SMTPExc) (req : SendReq),
        send_single_email (fun _ => Except.error exc) req = false)
    ∧ (∀ (e1 e2 : SMTPExc) (rows : List Row),
        send_emails_from_dataframe_enhanced (fun _ => Except.error e1) rows
          subject_template message_template variableList sender_email
          sender_password smtp_server smtp_port html_content bcc_mode
        = send_emails_from_dataframe_enhanced (fun _ => Except.error e2) rows
          subject_template message_template variableList sender_email
          sender_password smtp_server smtp_port html_content bcc_mode) := by
  refine ⟨?_, send_single_email_error, ?_⟩
  · intro s sv p e r e2
    refine ⟨?_, ?_, ?_⟩
    · exact string_beq_false_of_data_ne 2 _ _
        (by rw [authFailureLog_marker, connectFailureLog_marker]; decide)
    · exact string_beq_false_of_data_ne 2 _ _
        (by rw [authFailureLog_marker, otherFailureLog_marker]; decide)
    · exact string_beq_false_of_data_ne 2 _ _
        (by rw [connectFailureLog_marker, otherFailureLog_marker]; decide)
  · intro e1 e2 rows
    exact send_emails_loop_const_error e1 e2 subject_template message_template
      variableList sender_email sender_password smtp_server smtp_port
      html_content bcc_mode rows

/-- Claim C8 counterexample: on a one-contact campaign the loop sleeps
once, and the sleep is the last event of the trace — a sleep after the
last contact, where the claim requires none. -/
theorem claim8_counterexample :
    (send_emails_from_dataframe_enhanced (fun _ => Except.ok ())
        [[("email", some "alice@x.com")]] "S" "M" [] "s@y.com" "pw" "smtp.y"
        587 false false).events
      = [Event.send ⟨"s@y.com", "pw", "smtp.y", 587, "alice@x.com", "S", "M",
          false, false⟩ true, Event.sleep]
    ∧ (send_emails_from_dataframe_enhanced (fun _ => Except.ok ())
        [[("email", some "alice@x.com")]] "S" "M" [] "s@y.com" "pw" "smtp.y"
        587 false false).events.getLast? = some Event.sleep
    ∧ sleepCount (send_emails_from_dataframe_enhanced (fun _ => Except.ok ())
        [[("email", some "alice@x.com")]] "S" "M" [] "s@y.com" "pw" "smtp.y"
        587 false false).events = 1 := by
  refine ⟨by decide, by decide, by decide⟩

/-- Claim C8 amended: the loop sleeps exactly once after every
transmission attempt — including after the last contact — never after a
row skipped by validation, and never before the first contact; the trace
is the concatenation of the per-row event blocks. -/
theorem claim8_amended_pacing (smtp : SendReq → Except SMTPExc Unit)
    (subject_template message_template : String) (variableList : List String)
    (sender_email sender_password smtp_server : String) (smtp_port : Nat)
    (html_content bcc_mode : Bool) :
    (∀ rows : List Row,
        (send_emails_from_dataframe_enhanced smtp rows subject_template
          message_template variableList sender_email sender_password
          smtp_server smtp_port html_content bcc_mode).events
        = rows.flatMap (rowEvents smtp subject_template message_template
            variableList sender_email sender_password smtp_server smtp_port
            html_content bcc_mode))
    ∧ (∀ rows : List Row,
        sleepCount (send_emails_from_dataframe_enhanced smtp rows
          subject_template message_template variableList sender_email
          sender_password smtp_server smtp_port html_content bcc_mode).events
        = rows.countP rowAttempted)
    ∧ (∀ rows : List Row,
        headIsSleep (send_emails_from_dataframe_enhanced smtp rows
          subject_template message_template variableList sender_email
          sender_password smtp_server smtp_port html_content bcc_mode).events
        = false) :=
  ⟨send_emails_loop_events smtp subject_template message_template variableList
      sender_email sender_password smtp_server smtp_port html_content bcc_mode,
   send_emails_loop_sleeps smtp subject_template message_template variableList
      sender_email sender_password smtp_server smtp_port html_content bcc_mode,
   send_emails_loop_head smtp subject_template message_template variableList
      sender_email sender_password smtp_server smtp_port html_content bcc_mode⟩

/-- Claim C4: a row whose trimmed email is empty (absent or blank), and
a row whose trimmed email lacks an `@` or lacks a `.` after the last
`@`, are each recorded as one failure whose skip event (and log line)
distinguishes the missing from the malformed case; no transmitter
invocation happens for such a row, and the loop continues with the
remaining rows. -/
theorem claim4_invalid_rows_skip_without_transmission
    (smtp : SendReq → Except SMTPExc Unit)
    (subject_template message_template : String) (variableList : List String)
    (sender_email sender_password smtp_server : String) (smtp_port : Nat)
    (html_content bcc_mode : Bool) (row : Row) (rest : List Row) :
    (pyStrip (pyStrGet row "email") = "" →
      send_emails_loop smtp subject_template message_template variableList
          sender_email sender_password smtp_server smtp_port html_content
          bcc_mode (row :: rest)
        = ⟨(send_emails_loop smtp subject_template message_template
              variableList sender_email sender_password smtp_server smtp_port
              html_content bcc_mode rest).successful_sends,
           (send_emails_loop smtp subject_template message_template
              variableList sender_email sender_password smtp_server smtp_port
              html_content bcc_mode rest).failed_sends + 1,
           Event.skip_missing :: (send_emails_loop smtp subject_template
              message_template variableList sender_email sender_password
              smtp_server smtp_port html_content bcc_mode rest).events⟩
      ∧ transmitReqs (send_emails_loop smtp subject_template message_template
            variableList sender_email sender_password smtp_server smtp_port
            html_content bcc_mode (row :: rest)).events
        = transmitReqs (send_emails_loop smtp subject_template message_template
            variableList sender_email sender_password smtp_server smtp_port
            html_content bcc_mode rest).events)
    ∧ (pyStrip (pyStrGet row "email") ≠ "" →
       addressIsInvalid (pyStrip (pyStrGet row "email")) = true →
      send_emails_loop smtp subject_template message_template variableList
          sender_email sender_password smtp_server smtp_port html_content
          bcc_mode (row :: rest)
        = ⟨(send_emails_loop smtp subject_template message_template
              variableList sender_email sender_password smtp_server smtp_port
              html_content bcc_mode rest).successful_sends,
           (send_emails_loop smtp subject_template message_template
              variableList sender_email sender_password smtp_server smtp_port
              html_content bcc_mode rest).failed_sends + 1,
           Event.skip_invalid (pyStrip (pyStrGet row "email"))
             :: (send_emails_loop smtp subject_template message_template
              variableList sender_email sender_password smtp_server smtp_port
              html_content bcc_mode rest).events⟩
      ∧ transmitReqs (send_emails_loop smtp subject_template message_template
            variableList sender_email sender_password smtp_server smtp_port
            html_content bcc_mode (row :: rest)).events
        = transmitReqs (send_emails_loop smtp subject_template message_template
            variableList sender_email sender_password smtp_server smtp_port
            html_content bcc_mode rest).events)
    ∧ (∀ (i : Nat) (r : String), (skipMissingLog i == skipInvalidLog r i) = false) := by
  refine ⟨?_, ?_, ?_⟩
  · intro h
    have heq : send_emails_loop smtp subject_template message_template
        variableList sender_email sender_password smtp_server smtp_port
        html_content bcc_mode (row :: rest)
        = ⟨(send_emails_loop smtp subject_template message_template
              variableList sender_email sender_password smtp_server smtp_port
              html_content bcc_mode rest).successful_sends,
           (send_emails_loop smtp subject_template message_template
              variableList sender_email sender_password smtp_server smtp_port
              html_content bcc_mode rest).failed_sends + 1,
           Event.skip_missing :: (send_emails_loop smtp subject_template
              message_template variableList sender_email sender_password
              smtp_server smtp_port html_content bcc_mode rest).events⟩ := by
      simp only [send_emails_loop]
      rw [if_pos h]
    refine ⟨heq, ?_⟩
    rw [heq]
    simp [transmitReqs]
  · intro h1 h2
    have heq : send_emails_loop smtp subject_template message_template
        variableList sender_email sender_password smtp_server smtp_port
        html_content bcc_mode (row :: rest)
        = ⟨(send_emails_loop smtp subject_template message_template
              variableList sender_email sender_password smtp_server smtp_port
              html_content bcc_mode rest).successful_sends,
           (send_emails_loop smtp subject_template message_template
              variableList sender_email sender_password smtp_server smtp_port
              html_content bcc_mode rest).failed_sends + 1,
           Event.skip_invalid (pyStrip (pyStrGet row "email"))
             :: (send_emails_loop smtp subject_template message_template
              variableList sender_email sender_password smtp_server smtp_port
              html_content bcc_mode rest).events⟩ := by
      simp only [send_emails_loop]
      rw [if_neg h1, if_pos h2]
    refine ⟨heq, ?_⟩
    rw [heq]
    simp [transmitReqs]
  · intro i r
    exact string_beq_false_of_data_ne 12 _ _
      (by rw [skipMissingLog_marker, skipInvalidLog_marker]; decide)

/-- Claim C4 witness: a row without an email column is skipped as
missing, and a row whose address has no `@` is skipped as malformed;
neither produces a transmitter invocation. -/
theorem claim4_witness :
    send_emails_loop (fun _ => Except.ok ()) "S" "M" [] "s@y.com" "pw"
        "smtp.y" 587 false false [[]]
      = ⟨0, 1, [Event.skip_missing]⟩
    ∧ send_emails_loop (fun _ => Except.ok ()) "S" "M" [] "s@y.com" "pw"
        "smtp.y" 587 false false [[("email", some "not-an-email")]]
      = ⟨0, 1, [Event.skip_invalid "not-an-email"]⟩ := by
  constructor
  · have h := (claim4_invalid_rows_skip_without_transmission
      (fun _ => Except.ok ()) "S" "M" [] "s@y.com" "pw" "smtp.y" 587 false
      false [] []).1 (by decide)
    simpa [send_emails_loop] using h.1
  · have h := (claim4_invalid_rows_skip_without_transmission
      (fun _ => Except.ok ()) "S" "M" [] "s@y.com" "pw" "smtp.y" 587 false
      false [("email", some "not-an-email")] []).2.1 (by decide) (by decide)
    simpa [send_emails_loop] using h.1

/-! ### Rotation-queue lemmas for the spec-modelled dispatcher -/

/-- An empty rotation queue never selects an account. -/
lemma rotationSelections_nil : ∀ n : Nat, rotationSelections n [] = [] := by
  intro n
  cases n <;> rfl

/-- One pop-front/re-append-back step shifts the cyclic index by one. -/
lemma rotate_getD (a : EmailConfig) (t : List EmailConfig) (d : EmailConfig)
    (i : Nat) :
    (t ++ [a]).getD (i % (t.length + 1)) d
      = (a :: t).getD ((i + 1) % (t.length + 1)) d := by
  have hmod : i % (t.length + 1) < t.length + 1 := Nat.mod_lt _ (Nat.succ_pos _)
  by_cases hj : i % (t.length + 1) = t.length
  · have h2 : (i + 1) % (t.length + 1) = 0 := by
      rw [← Nat.mod_add_mod, hj]
      exact Nat.mod_self _
    rw [hj, h2, List.getD_cons_zero, List.getD_eq_getElem?_getD,
      List.getElem?_append_right (le_refl t.length)]
    simp
  · have hjlt : i % (t.length + 1) < t.length := by omega
    have h2 : (i + 1) % (t.length + 1) = i % (t.length + 1) + 1 := by
      rw [← Nat.mod_add_mod]
      exact Nat.mod_eq_of_lt (by omega)
    rw [h2, List.getD_cons_succ, List.getD_eq_getElem?_getD,
      List.getD_eq_getElem?_getD, List.getElem?_append, if_pos hjlt]

/-- Strict round-robin: `n` pop-front/re-append-back selections from a
non-empty queue are exactly the cyclic reads starting at index 0. -/
lemma rotationSelections_eq (d : EmailConfig) :
    ∀ (n : Nat) (q : List EmailConfig), q ≠ [] →
      rotationSelections n q
        = (List.range n).map (fun i => q.getD (i % q.length) d) := by
  intro n
  induction n with
  | zero => intro q _; rfl
  | succ n ih =>
    intro q hq
    cases q with
    | nil => exact absurd rfl hq
    | cons a t =>
      show a :: rotationSelections n (t ++ [a]) = _
      rw [ih (t ++ [a]) (by simp), List.range_succ_eq_map]
      simp only [List.map_cons, List.map_map, List.getD_cons_zero]
      congr 1
      apply List.map_congr_left
      intro i _
      have h := rotate_getD a t d i
      simpa using h

/-- The accounts the spec-modelled loop uses are exactly the rotation
selections, one per contact that reaches the account-selection step. -/
lemma rrLoop_used (send : EmailConfig → String → String → String → Bool)
    (subjectTemplate messageTemplate : String) (variableNames : List String) :
    ∀ (rows : List Row) (q : List EmailConfig),
      (rrLoop send subjectTemplate messageTemplate variableNames q
        rows).used_accounts
        = rotationSelections (rows.countP rrAttempted) q := by
  intro rows
  induction rows with
  | nil => intro q; rfl
  | cons row rest ih =>
    intro q
    simp only [rrLoop, List.countP_cons]
    split
    · next h =>
      have hA : rrAttempted row = false := by simp [rrAttempted, h]
      simp [hA, ih q]
    · split
      · next h1 h2 =>
        have hA : rrAttempted row = false := by simp [rrAttempted, h2]
        simp [hA, ih q]
      · next h1 h2 =>
        have hA : rrAttempted row = true := by
          simp only [rrAttempted, Bool.and_eq_true, Bool.not_eq_true']
          exact ⟨by simpa using h1, by simpa using h2⟩
        cases q with
        | nil =>
          simp [hA, ih [], rotationSelections_nil]
        | cons a t =>
          by_cases hok : send a (pyStrip (pyStrGet row "email"))
              (replace_variables_in_message subjectTemplate row variableNames)
              (replace_variables_in_message messageTemplate row variableNames)
              = true
          · simp [hA, hok, ih (t ++ [a]), rotationSelections]
          · simp [hA, hok, ih (t ++ [a]), rotationSelections]

/-- Claim C2: with a non-empty ordered account sequence, the
spec-modelled dispatcher selects the account for the `i`-th contact that
reaches transmission by strict round-robin rotation starting from
account index 0 — the account at position `i mod k`. -/
theorem claim2_round_robin_rotation
    (send : EmailConfig → String → String → String → Bool)
    (subjectTemplate messageTemplate : String) (variableNames : List String)
    (accounts : List EmailConfig) (h : accounts ≠ []) (contacts : List Row)
    (d : EmailConfig) :
    (dispatch_rr send subjectTemplate messageTemplate variableNames accounts
        contacts).used_accounts
      = (List.range (contacts.countP rrAttempted)).map
          (fun i => accounts.getD (i % accounts.length) d) := by
  unfold dispatch_rr
  rw [if_neg (by simpa [List.isEmpty_iff] using h)]
  rw [rrLoop_used]
  exact rotationSelections_eq d _ accounts h

/-- Claim C2 witness: for accounts `[A, B, C]` and seven valid contacts
the account-use sequence is `A, B, C, A, B, C, A`. -/
theorem claim2_witness :
    (dispatch_rr (fun _ _ _ _ => true) "S" "M" []
        [⟨"a@s.com", "pa", "smtp.a", 587⟩, ⟨"b@s.com", "pb", "smtp.b", 587⟩,
         ⟨"c@s.com", "pc", "smtp.c", 587⟩]
        [[("email", some "c1@x.com")], [("email", some "c2@x.com")],
         [("email", some "c3@x.com")], [("email", some "c4@x.com")],
         [("email", some "c5@x.com")], [("email", some "c6@x.com")],
         [("email", some "c7@x.com")]]).used_accounts
      = [⟨"a@s.com", "pa", "smtp.a", 587⟩, ⟨"b@s.com", "pb", "smtp.b", 587⟩,
         ⟨"c@s.com", "pc", "smtp.c", 587⟩, ⟨"a@s.com", "pa", "smtp.a", 587⟩,
         ⟨"b@s.com", "pb", "smtp.b", 587⟩, ⟨"c@s.com", "pc", "smtp.c", 587⟩,
         ⟨"a@s.com", "pa", "smtp.a", 587⟩] := by
  rw [claim2_round_robin_rotation (fun _ _ _ _ => true) "S" "M" [] _
    (by decide) _ ⟨"a@s.com", "pa", "smtp.a", 587⟩]
  decide

/-- Claim C5: with zero configured accounts the spec-modelled dispatcher
fast-fails before the per-contact loop: every one of the N contacts is
recorded as failed with reason `no sender configuration`, the
transmitter is never invoked, and nothing succeeds. -/
theorem claim5_zero_accounts_fast_fail
    (send : EmailConfig → String → String → String → Bool)
    (subjectTemplate messageTemplate : String) (variableNames : List String)
    (contacts : List Row) :
    dispatch_rr send subjectTemplate messageTemplate variableNames [] contacts
      = ⟨[], contacts.map
            (fun row => (pyStrip (pyStrGet row "email"), no_sender_reason)),
          [], 0⟩
    ∧ (dispatch_rr send subjectTemplate messageTemplate variableNames []
        contacts).failed.length = contacts.length
    ∧ (dispatch_rr send subjectTemplate messageTemplate variableNames []
        contacts).transmitter_calls = 0 := by
  refine ⟨rfl, ?_, rfl⟩
  simp [dispatch_rr]

/-- Claim C10: for every request to the `/send-emails` endpoint that
passes input validation, the call into
`send_emails_from_dataframe_enhanced` raises `TypeError` — the
`email_configs` keyword names no parameter of the function (and the
required sender parameters are not supplied) — so the `except Exception`
clause answers HTTP 500 and the transmitter is never invoked. -/
theorem claim10_endpoint_always_500
    (smtp : SendReq → Except SMTPExc Unit) (df : List Row)
    (subject message : String) (variableList : List String)
    (html_content bcc_mode : Bool) :
    bindKeywordCall dispatcherParams dispatcherDefaulted endpointCallKeywords
      = Except.error (PyCallError.unexpectedKeyword "email_configs")
    ∧ send_emails_endpoint_core smtp df subject message variableList
        html_content bcc_mode = (500, 0) := by
  exact ⟨rfl, rfl⟩

end Mailstorm
